import Mathlib

/-!
Shallow embedding of `tls/s2n_client_key_exchange.c` (s2n client key-exchange
phase): the RSA premaster-secret transport path with its Bleichenbacher
oracle defense, the KEM aliasing guard, the hybrid (classical + post-quantum)
combiner, and master-secret finalization cleanup.

Modelling conventions:
* Bytes are `Nat` values (the source stores them in `uint8_t` fields; all
  arithmetic performed on them here — `v / 10`, `v % 10` — stays below 256
  when the input is below 256, so no explicit wraparound is needed).
* A stuffer (`struct s2n_stuffer`) is a byte list plus independent read and
  write cursors; `data_available = write_cursor - read_cursor`.
* Fallible C functions become `Except S2nError` / `Option` values.  Error
  codes of the safety macros (`notnull_check` → `S2N_ERR_NULL`,
  `gt_check`/`gte_check`/`S2N_ERROR_IF(…, S2N_ERR_SAFETY)` → `S2N_ERR_SAFETY`)
  are taken from the s2n safety conventions; the spec's error taxonomy
  distinguishes resource errors (null buffer) from safety-invariant errors.
* External collaborators (random generator, PRF, pkey primitives, KEM
  primitives, the two hybrid sub-methods) are parameters of the functions
  that call them: a collaborator that produces bytes is passed the byte list
  it produced, one that can fail is passed a success flag or is a function
  parameter, exactly mirroring how the C source treats them as opaque calls.
* Pointer identity, where the source compares addresses (`shared_key !=
  &conn->secure.kem_params.shared_secret`), is modelled by `Nat` addresses,
  with `0` playing the role of the null pointer.
-/

deriving instance DecidableEq for Except

/-- `S2N_TLS_SECRET_LEN`: width of the RSA premaster secret (48 bytes). -/
def S2N_TLS_SECRET_LEN : Nat := 48

/-- `S2N_TLS_PROTOCOL_VERSION_LEN`: wire width of a protocol version. -/
def S2N_TLS_PROTOCOL_VERSION_LEN : Nat := 2

/-- Protocol version constant `S2N_SSLv2`. -/
def S2N_SSLv2 : Nat := 20

/-- Protocol version constant `S2N_SSLv3`. -/
def S2N_SSLv3 : Nat := 30

/-- Error codes surfaced by the modelled functions.  `null_ptr` stands for
`S2N_ERR_NULL` (raised by `notnull_check`), `safety` for `S2N_ERR_SAFETY`
(raised by `gt_check`, `gte_check` and the explicit KEM aliasing check),
`failure` for an error propagated from an external collaborator. -/
inductive S2nError where
  | null_ptr
  | bad_message
  | size_mismatch
  | safety
  | out_of_data
  | failure
  deriving DecidableEq, Repr

/-- `struct s2n_stuffer`: a byte buffer with independent read/write cursors. -/
structure Stuffer where
  data : List Nat
  read_cursor : Nat
  write_cursor : Nat
  deriving DecidableEq, Repr

/-- `s2n_stuffer_data_available`: bytes readable between the cursors. -/
def s2n_stuffer_data_available (s : Stuffer) : Nat :=
  s.write_cursor - s.read_cursor

/-- `s2n_stuffer_read_uint16`: read a big-endian 16-bit value, failing when
fewer than two bytes are available. -/
def s2n_stuffer_read_uint16 (s : Stuffer) : Except S2nError (Nat × Stuffer) :=
  if 2 ≤ s2n_stuffer_data_available s then
    .ok (s.data.getD s.read_cursor 0 * 256 + s.data.getD (s.read_cursor + 1) 0,
         { s with read_cursor := s.read_cursor + 2 })
  else .error .out_of_data

/-- `s2n_stuffer_raw_read`: return `len` bytes at the read cursor and advance
it; returns `none` (a null pointer in C) when `len` exceeds the available
bytes. -/
def s2n_stuffer_raw_read (s : Stuffer) (len : Nat) : Option (List Nat × Stuffer) :=
  if len ≤ s2n_stuffer_data_available s then
    some ((s.data.drop s.read_cursor).take len,
          { s with read_cursor := s.read_cursor + len })
  else none

/-- Write bytes at the write cursor (overwriting, growing as needed) and
advance it; the growable handshake stuffer's allocation failures are outside
this model. -/
def s2n_stuffer_write_bytes (s : Stuffer) (b : List Nat) : Stuffer :=
  { s with
    data := s.data.take s.write_cursor ++ b ++ s.data.drop (s.write_cursor + b.length),
    write_cursor := s.write_cursor + b.length }

/-- `s2n_stuffer_write_uint16`: write a 16-bit value big-endian. -/
def s2n_stuffer_write_uint16 (s : Stuffer) (u : Nat) : Stuffer :=
  s2n_stuffer_write_bytes s [u / 256 % 256, u % 256]

/-- The connection fields `s2n_client_key_exchange.c` touches:
protocol-version fields, the fixed-size `rsa_premaster_secret` buffer, the
duplex handshake stuffer `conn->handshake.io`, the `handshake.rsa_failed`
flag, the async-pkey marker, the KEM parameter block's shared-secret buffer
together with its address (for the aliasing assertion), and the captured
hybrid client key-exchange message span (start offset + size). -/
structure Conn where
  client_hello_version : Nat
  client_protocol_version : Nat
  actual_protocol_version : Nat
  rsa_premaster_secret : List Nat
  handshake_io : Stuffer
  rsa_failed : Bool
  async_pkey_pending : Bool
  kem_shared_secret : List Nat
  kem_shared_secret_addr : Nat
  client_key_exchange_message_data : Nat
  client_key_exchange_message_size : Nat
  deriving DecidableEq, Repr

/-- The macro `get_client_hello_protocol_version(conn)`: the client hello
version, unless the hello was in SSLv2 format, in which case the client's
protocol version. -/
def get_client_hello_protocol_version (conn : Conn) : Nat :=
  if conn.client_hello_version = S2N_SSLv2 then conn.client_protocol_version
  else conn.client_hello_version

/-- `s2n_constant_time_equals(a, b, len)`: compare `len` bytes.  The model
keeps only the functional result; the constant-time property is a
non-functional guarantee of the collaborator. -/
def s2n_constant_time_equals (a b : List Nat) (len : Nat) : Bool :=
  a.take len = b.take len

/-- Result of `s2n_rsa_client_key_recv` up to the decrypt submission:
either the async guard suspended the operation, or the function reached
`S2N_ASYNC_PKEY_DECRYPT` with the connection state `conn` (premaster buffer
already randomized and version-stamped) and the ciphertext `encrypted`. -/
inductive RecvOutcome where
  | suspended (conn : Conn)
  | submitted (conn : Conn) (encrypted : List Nat)
  deriving DecidableEq, Repr

/-- `s2n_rsa_client_key_recv`: the receive path up to the decrypt
submission.  `random_data` is the byte sequence produced by
`s2n_get_private_random_data` for the 48-byte premaster buffer (the call
fills exactly `shared_key->size = S2N_TLS_SECRET_LEN` bytes).
`S2N_ASYNC_PKEY_GUARD` is modelled from the spec: if an async private-key
operation is pending, suspend and return control.  The source declares the
ciphertext length as `uint16_t length`, so the SSLv3 branch's assignment
`length = s2n_stuffer_data_available(in)` converts the `uint32_t` byte
count to `uint16_t`, i.e. reduces it modulo `2^16`.  The decrypt itself and
its completion are modelled by `s2n_rsa_client_key_recv_complete`. -/
def s2n_rsa_client_key_recv (conn : Conn) (random_data : List Nat) :
    Except S2nError RecvOutcome :=
  if conn.async_pkey_pending then .ok (.suspended conn)
  else
    let lengthRead : Except S2nError (Nat × Stuffer) :=
      if conn.actual_protocol_version = S2N_SSLv3 then
        .ok (s2n_stuffer_data_available conn.handshake_io % 65536, conn.handshake_io)
      else
        s2n_stuffer_read_uint16 conn.handshake_io
    match lengthRead with
    | .error e => .error e
    | .ok (len, s1) =>
      if len > s2n_stuffer_data_available s1 then .error .bad_message
      else
        let version := get_client_hello_protocol_version conn
        match s2n_stuffer_raw_read s1 len with
        | none => .error .null_ptr
        | some (encrypted, s2) =>
          if encrypted.length = 0 then .error .safety
          else
            let premaster := (random_data.set 0 (version / 10)).set 1 (version % 10)
            .ok (.submitted
              { conn with handshake_io := s2, rsa_premaster_secret := premaster }
              encrypted)

/-- The decrypted buffer handed to the completion callback: its bytes, and
whether its data pointer is the connection's own `rsa_premaster_secret`
buffer (the synchronous case) or separate memory (the async case). -/
structure DecryptedBuf where
  bytes : List Nat
  aliases_premaster : Bool
  deriving DecidableEq, Repr

/-- `s2n_rsa_client_key_recv_complete`: runs after the private-key decrypt,
whether synchronous or deferred.  Size mismatch is fatal; otherwise the
(possibly wrong) decryption result lands in the premaster buffer and the
single `rsa_failed` flag records decrypt failure OR version-byte mismatch. -/
def s2n_rsa_client_key_recv_complete (conn : Conn) (rsa_failed : Bool)
    (decrypted : DecryptedBuf) : Except S2nError Conn :=
  if decrypted.bytes.length ≠ S2N_TLS_SECRET_LEN then .error .size_mismatch
  else
    let conn1 :=
      if decrypted.aliases_premaster then conn
      else { conn with rsa_premaster_secret := decrypted.bytes }
    let version := get_client_hello_protocol_version conn1
    let expected := [version / 10, version % 10]
    let failed := rsa_failed ||
      !(s2n_constant_time_equals expected conn1.rsa_premaster_secret
          S2N_TLS_PROTOCOL_VERSION_LEN)
    .ok { conn1 with rsa_failed := failed }

/-- `struct s2n_blob`: bytes plus whether the storage was dynamically
allocated (`blob.allocated != 0`); a well-formed blob's `size` equals its
data length. -/
structure Blob where
  data : List Nat
  allocated : Bool
  deriving DecidableEq, Repr

/-- `s2n_blob_zero`: overwrite every byte of the blob with zero. -/
def s2n_blob_zero (b : Blob) : Blob :=
  { b with data := List.replicate b.data.length 0 }

/-- Outcomes of the external collaborators `s2n_calculate_keys` invokes:
the PRF (`s2n_kex_tls_prf`), key expansion (`s2n_prf_key_expansion`), the
cache predicate (`s2n_allowed_to_cache_connection`) and the cache store
(`s2n_store_to_cache`). -/
structure CalcKeysDeps where
  prf_ok : Bool
  expand_ok : Bool
  allowed_to_cache : Bool
  cache_ok : Bool
  deriving DecidableEq, Repr

/-- Observable trace of `s2n_calculate_keys`: the overall result, the bytes
left in the shared-secret buffer's storage, and whether that storage was
released by `s2n_free`. -/
structure CalcKeysTrace where
  result : Except S2nError Unit
  shared_key_bytes : List Nat
  freed : Bool
  deriving DecidableEq, Repr

/-- `s2n_calculate_keys`: derive the master secret via the PRF, zero the
shared-secret buffer, free it when dynamically allocated, expand keys, and
optionally store the session in the cache. -/
def s2n_calculate_keys (deps : CalcKeysDeps) (shared_key : Blob) : CalcKeysTrace :=
  if ¬ deps.prf_ok then
    { result := .error .failure, shared_key_bytes := shared_key.data, freed := false }
  else
    let zeroed := s2n_blob_zero shared_key
    let freed := zeroed.allocated
    if ¬ deps.expand_ok then
      { result := .error .failure, shared_key_bytes := zeroed.data, freed := freed }
    else if deps.allowed_to_cache ∧ ¬ deps.cache_ok then
      { result := .error .failure, shared_key_bytes := zeroed.data, freed := freed }
    else
      { result := .ok (), shared_key_bytes := zeroed.data, freed := freed }

/-- Which of the handshake stuffer's two cursors a hybrid action tracks:
`s2n_hybrid_client_key_recv` passes `&conn->handshake.io.read_cursor`,
`s2n_hybrid_client_key_send` passes `&conn->handshake.io.write_cursor`. -/
inductive CursorSel where
  | read
  | write
  deriving DecidableEq, Repr

/-- Value of the selected cursor on a connection. -/
def cursorVal : CursorSel → Conn → Nat
  | .read, c => c.handshake_io.read_cursor
  | .write, c => c.handshake_io.write_cursor

/-- Successful outcome of the hybrid combiner: the final connection state and
the freshly allocated combined shared-secret blob. -/
structure HybridOk where
  conn : Conn
  combined_shared_key : Blob
  deriving DecidableEq, Repr

/-- One `s2n_stuffer_write` into the combiner stuffer initialized over the
freshly allocated combined blob: append `b` to the bytes already written,
failing when the blob's capacity `cap` would be exceeded. -/
def s2n_stuffer_combiner_write (cap : Nat) (written b : List Nat) : Option (List Nat) :=
  if written.length + b.length ≤ cap then some (written ++ b) else none

/-- `s2n_hybrid_client_action`: run the two hybrid sub-methods (the same
`kex_method` function pointer applied to `hybrid[0]` then `hybrid[1]`, here
indexed `0` and `1`) over the shared handshake stuffer, capture the message
span bracketing both, and concatenate the two component secrets into a
freshly allocated combined blob.  Each sub-method returns the updated
connection and the bytes it stored in its shared-key blob; sub-method `1` is
handed `&conn->secure.kem_params.shared_secret` itself, so the combiner reads
that field of the updated connection (the blob and the field are the same
memory). -/
def s2n_hybrid_client_action (conn : Conn)
    (kex_method : Nat → Conn → Except S2nError (Conn × List Nat))
    (sel : CursorSel) : Except S2nError HybridOk :=
  let conn0 := { conn with client_key_exchange_message_data := cursorVal sel conn }
  let start_cursor := cursorVal sel conn0
  match kex_method 0 conn0 with
  | .error e => .error e
  | .ok (conn1, shared_key_0) =>
    match kex_method 1 conn1 with
    | .error e => .error e
    | .ok (conn2, _) =>
      let end_cursor := cursorVal sel conn2
      if end_cursor < start_cursor then .error .safety
      else
        let conn3 := { conn2 with
          client_key_exchange_message_size := end_cursor - start_cursor }
        let shared_key_1 := conn3.kem_shared_secret
        let cap := shared_key_0.length + shared_key_1.length
        match s2n_stuffer_combiner_write cap [] shared_key_0 with
        | none => .error .out_of_data
        | some written1 =>
          match s2n_stuffer_combiner_write cap written1 shared_key_1 with
          | none => .error .out_of_data
          | some written2 =>
            .ok { conn := { conn3 with kem_shared_secret := [] },
                  combined_shared_key := { data := written2, allocated := true } }

/-- `s2n_hybrid_client_key_recv`: the hybrid action over the read cursor
(the `kex_method` function pointer is `s2n_kex_client_key_recv`, an external
dispatcher kept as a parameter). -/
def s2n_hybrid_client_key_recv (conn : Conn)
    (kex_method : Nat → Conn → Except S2nError (Conn × List Nat)) :
    Except S2nError HybridOk :=
  s2n_hybrid_client_action conn kex_method .read

/-- `s2n_hybrid_client_key_send`: the hybrid action over the write cursor. -/
def s2n_hybrid_client_key_send (conn : Conn)
    (kex_method : Nat → Conn → Except S2nError (Conn × List Nat)) :
    Except S2nError HybridOk :=
  s2n_hybrid_client_action conn kex_method .write

/-- `s2n_kem_client_key_recv`: `notnull_check(shared_key)` then the aliasing
assertion `shared_key == &conn->secure.kem_params.shared_secret`
(`S2N_ERR_SAFETY` on violation), then the external primitive
`s2n_kem_recv_ciphertext`.  `shared_key` is the caller's blob pointer,
modelled as an address with `0` for NULL. -/
def s2n_kem_client_key_recv (kem_recv_ciphertext : Conn → Except S2nError Conn)
    (conn : Conn) (shared_key : Nat) : Except S2nError Conn :=
  if shared_key = 0 then .error .null_ptr
  else if shared_key ≠ conn.kem_shared_secret_addr then .error .safety
  else kem_recv_ciphertext conn

/-- `s2n_kem_client_key_send`: same guard structure as the receive side,
delegating to the external primitive `s2n_kem_send_ciphertext`. -/
def s2n_kem_client_key_send (kem_send_ciphertext : Conn → Except S2nError Conn)
    (conn : Conn) (shared_key : Nat) : Except S2nError Conn :=
  if shared_key = 0 then .error .null_ptr
  else if shared_key ≠ conn.kem_shared_secret_addr then .error .safety
  else kem_send_ciphertext conn

/-- `s2n_rsa_client_key_send`: fill the premaster buffer with fresh random
bytes (`random_data`), stamp the advertised-version bytes, query the server
public key's ciphertext size (`pkey_size_ok`/`encrypted_size` model
`s2n_pkey_size`), reject sizes above the 16-bit range, write the length
prefix for versions newer than SSLv3, reserve the ciphertext region in the
handshake stuffer and let `s2n_pkey_encrypt` fill it (`pkey_encrypt_ok` and
`ciphertext`, truncated/padded to the reserved width since the primitive
writes exactly `encrypted_size` bytes), then free the public key
(`pkey_free_ok`).  Returns the updated connection and the premaster bytes
the caller's `shared_key` blob points at. -/
def s2n_rsa_client_key_send (conn : Conn) (random_data : List Nat)
    (pkey_size_ok : Bool) (encrypted_size : Nat) (ciphertext : List Nat)
    (pkey_encrypt_ok : Bool) (pkey_free_ok : Bool) :
    Except S2nError (Conn × List Nat) :=
  let version := get_client_hello_protocol_version conn
  let premaster := (random_data.set 0 (version / 10)).set 1 (version % 10)
  if pkey_size_ok then
    if 0xffff < encrypted_size then .error .size_mismatch
    else
      let out1 :=
        if S2N_SSLv3 < conn.actual_protocol_version then
          s2n_stuffer_write_uint16 conn.handshake_io encrypted_size
        else conn.handshake_io
      if pkey_encrypt_ok then
        let region := ciphertext.take encrypted_size ++
          List.replicate (encrypted_size - ciphertext.length) 0
        let out2 := s2n_stuffer_write_bytes out1 region
        if pkey_free_ok then
          .ok ({ conn with handshake_io := out2, rsa_premaster_secret := premaster },
               premaster)
        else .error .failure
      else .error .failure
  else .error .failure

/-- An empty handshake stuffer, for concrete instantiations. -/
def exampleStuffer : Stuffer :=
  { data := [], read_cursor := 0, write_cursor := 0 }

/-- A concrete connection used to instantiate theorems about the KEM and
hybrid paths. -/
def exampleKemConn : Conn :=
  { client_hello_version := 33
    client_protocol_version := 33
    actual_protocol_version := 33
    rsa_premaster_secret := List.replicate 48 0
    handshake_io := exampleStuffer
    rsa_failed := false
    async_pkey_pending := false
    kem_shared_secret := [7, 7, 7]
    kem_shared_secret_addr := 1
    client_key_exchange_message_data := 0
    client_key_exchange_message_size := 0 }

theorem cursorVal_set_message_data (sel : CursorSel) (conn : Conn) (d : Nat) :
    cursorVal sel { conn with client_key_exchange_message_data := d }
      = cursorVal sel conn := by
  cases sel <;> rfl

/-- Inversion of `s2n_rsa_client_key_recv`: on any run reaching the decrypt
submission, the async guard passed, reading the length succeeded, the length
check passed, the ciphertext was read, it was non-empty, and the output
connection carries the randomized premaster buffer whose first two bytes are
the advertised-version wire bytes. -/
theorem s2n_rsa_client_key_recv_submitted_inv (conn : Conn) (random_data : List Nat)
    (conn2 : Conn) (encrypted : List Nat)
    (hres : s2n_rsa_client_key_recv conn random_data = .ok (.submitted conn2 encrypted)) :
    conn.async_pkey_pending = false ∧
    ∃ len s1 s2,
      (if conn.actual_protocol_version = S2N_SSLv3 then
          (.ok (s2n_stuffer_data_available conn.handshake_io % 65536, conn.handshake_io) :
            Except S2nError (Nat × Stuffer))
        else s2n_stuffer_read_uint16 conn.handshake_io) = .ok (len, s1) ∧
      ¬ len > s2n_stuffer_data_available s1 ∧
      s2n_stuffer_raw_read s1 len = some (encrypted, s2) ∧
      encrypted.length ≠ 0 ∧
      conn2 = { conn with
                handshake_io := s2
                rsa_premaster_secret :=
                  (random_data.set 0 (get_client_hello_protocol_version conn / 10)).set 1
                    (get_client_hello_protocol_version conn % 10) } := by
  simp only [s2n_rsa_client_key_recv] at hres
  split at hres
  · exact absurd hres (by simp)
  next hpend =>
  refine ⟨by simpa using hpend, ?_⟩
  split at hres
  · exact absurd hres (by simp)
  next len s1 heq =>
  split at hres
  · exact absurd hres (by simp)
  next hlen =>
  split at hres
  · exact absurd hres (by simp)
  next enc s2 hraw =>
  split at hres
  · exact absurd hres (by simp)
  next hnz =>
  simp only [Except.ok.injEq, RecvOutcome.submitted.injEq] at hres
  obtain ⟨hconn, henc⟩ := hres
  subst henc
  exact ⟨len, s1, s2, heq, hlen, hraw, hnz, hconn.symm⟩

/-- C6: After `s2n_calculate_keys` derives the master secret from a shared
secret (the PRF call succeeded), every byte of the shared-secret buffer is
zeroed, and its storage is freed if and only if it was dynamically allocated
(`shared_key.allocated`); this holds on every continuation, including the
paths where key expansion or the cache store fails afterwards. -/
theorem c6_calculate_keys_zeroes_and_frees (deps : CalcKeysDeps) (shared_key : Blob)
    (hprf : deps.prf_ok = true) :
    (s2n_calculate_keys deps shared_key).shared_key_bytes
        = List.replicate shared_key.data.length 0 ∧
    (s2n_calculate_keys deps shared_key).freed = shared_key.allocated := by
  obtain ⟨p, e, a, c⟩ := deps
  obtain rfl : p = true := hprf
  cases e <;> cases a <;> cases c <;> simp [s2n_calculate_keys, s2n_blob_zero]

/-- Witness for C6 at a concrete dependency record and blob. -/
theorem c6_calculate_keys_zeroes_and_frees_witness :
    (s2n_calculate_keys
        { prf_ok := true, expand_ok := true, allowed_to_cache := false, cache_ok := true }
        { data := [5, 6, 7], allocated := true }).shared_key_bytes
      = List.replicate ([5, 6, 7] : List Nat).length 0 ∧
    (s2n_calculate_keys
        { prf_ok := true, expand_ok := true, allowed_to_cache := false, cache_ok := true }
        { data := [5, 6, 7], allocated := true }).freed
      = ({ data := [5, 6, 7], allocated := true } : Blob).allocated :=
  c6_calculate_keys_zeroes_and_frees
    { prf_ok := true, expand_ok := true, allowed_to_cache := false, cache_ok := true }
    { data := [5, 6, 7], allocated := true } rfl

/-- C4 (amended): for every non-null `shared_key`, both
`s2n_kem_client_key_recv` and `s2n_kem_client_key_send` fail with
`S2N_ERR_SAFETY` whenever `shared_key` is not the address of the
connection's own `kem_params.shared_secret` field, and delegate to the KEM
primitive exactly when it is; a null `shared_key` is instead rejected by
`notnull_check` with `S2N_ERR_NULL` (see the counterexample). -/
theorem c4_kem_alias_guard (kem_recv_ciphertext kem_send_ciphertext : Conn → Except S2nError Conn)
    (conn : Conn) (shared_key : Nat) (hnn : shared_key ≠ 0) :
    (shared_key ≠ conn.kem_shared_secret_addr →
      s2n_kem_client_key_recv kem_recv_ciphertext conn shared_key = .error .safety ∧
      s2n_kem_client_key_send kem_send_ciphertext conn shared_key = .error .safety) ∧
    (shared_key = conn.kem_shared_secret_addr →
      s2n_kem_client_key_recv kem_recv_ciphertext conn shared_key
          = kem_recv_ciphertext conn ∧
      s2n_kem_client_key_send kem_send_ciphertext conn shared_key
          = kem_send_ciphertext conn) := by
  constructor
  · intro hne
    constructor
    · simp [s2n_kem_client_key_recv, hnn, hne]
    · simp [s2n_kem_client_key_send, hnn, hne]
  · intro heq
    subst heq
    constructor
    · simp [s2n_kem_client_key_recv, hnn]
    · simp [s2n_kem_client_key_send, hnn]

/-- Witness for C4's amended guard at concrete inputs: a non-aliasing
non-null pointer is rejected with the safety error, and the aliasing pointer
reaches the primitive. -/
theorem c4_kem_alias_guard_witness :
    ((2 : Nat) ≠ exampleKemConn.kem_shared_secret_addr →
      s2n_kem_client_key_recv (fun c => .ok c) exampleKemConn 2 = .error .safety ∧
      s2n_kem_client_key_send (fun c => .ok c) exampleKemConn 2 = .error .safety) ∧
    ((2 : Nat) = exampleKemConn.kem_shared_secret_addr →
      s2n_kem_client_key_recv (fun c => .ok c) exampleKemConn 2
          = (fun (c : Conn) => (.ok c : Except S2nError Conn)) exampleKemConn ∧
      s2n_kem_client_key_send (fun c => .ok c) exampleKemConn 2
          = (fun (c : Conn) => (.ok c : Except S2nError Conn)) exampleKemConn) :=
  c4_kem_alias_guard (fun c => .ok c) (fun c => .ok c) exampleKemConn 2 (by decide)

/-- C4 counterexample: at the concrete input `shared_key = NULL` (address
`0`), which is not the address of the connection's
`kem_params.shared_secret` field, `s2n_kem_client_key_recv` fails with
`S2N_ERR_NULL` from `notnull_check`, not with `S2N_ERR_SAFETY` as the claim
requires for every non-aliasing input. -/
theorem c4_kem_alias_guard_counterexample :
    (0 : Nat) ≠ exampleKemConn.kem_shared_secret_addr ∧
    s2n_kem_client_key_recv (fun c => .ok c) exampleKemConn 0 = .error .null_ptr ∧
    s2n_kem_client_key_recv (fun c => .ok c) exampleKemConn 0 ≠ .error .safety := by
  refine ⟨by decide, rfl, by decide⟩

/-- C2: `s2n_rsa_client_key_recv_complete` fails (with the size-mismatch
error) exactly when the decrypted buffer's length differs from
`S2N_TLS_SECRET_LEN`; for every correctly sized buffer it succeeds, and the
returned connection's single `rsa_failed` flag equals: decrypt reported
failure OR the first two premaster-secret bytes differ (under
`s2n_constant_time_equals`) from the expected advertised-version bytes. -/
theorem c2_rsa_recv_complete_flag (conn : Conn) (rsa_failed : Bool)
    (decrypted : DecryptedBuf) :
    (decrypted.bytes.length ≠ S2N_TLS_SECRET_LEN →
      s2n_rsa_client_key_recv_complete conn rsa_failed decrypted
        = .error .size_mismatch) ∧
    (decrypted.bytes.length = S2N_TLS_SECRET_LEN →
      ∃ conn2, s2n_rsa_client_key_recv_complete conn rsa_failed decrypted = .ok conn2 ∧
        conn2.rsa_failed = (rsa_failed ||
          !(s2n_constant_time_equals
              [get_client_hello_protocol_version conn / 10,
               get_client_hello_protocol_version conn % 10]
              conn2.rsa_premaster_secret S2N_TLS_PROTOCOL_VERSION_LEN))) := by
  constructor
  · intro hne
    simp [s2n_rsa_client_key_recv_complete, hne]
  · intro heq
    have hcond : ¬ (decrypted.bytes.length ≠ S2N_TLS_SECRET_LEN) := by simp [heq]
    unfold s2n_rsa_client_key_recv_complete
    rw [if_neg hcond]
    simp only []
    split
    · exact ⟨_, rfl, rfl⟩
    · exact ⟨_, rfl, rfl⟩

/-- Witness for C2 at a concrete connection and 48-byte decrypted buffer
whose version bytes match the advertised version (TLS 1.2 → `3, 3`). -/
theorem c2_rsa_recv_complete_flag_witness :
    (((3 : Nat) :: 3 :: List.replicate 46 9).length ≠ S2N_TLS_SECRET_LEN →
      s2n_rsa_client_key_recv_complete exampleKemConn false
        { bytes := 3 :: 3 :: List.replicate 46 9, aliases_premaster := false }
        = .error .size_mismatch) ∧
    (((3 : Nat) :: 3 :: List.replicate 46 9).length = S2N_TLS_SECRET_LEN →
      ∃ conn2, s2n_rsa_client_key_recv_complete exampleKemConn false
          { bytes := 3 :: 3 :: List.replicate 46 9, aliases_premaster := false }
          = .ok conn2 ∧
        conn2.rsa_failed = (false ||
          !(s2n_constant_time_equals
              [get_client_hello_protocol_version exampleKemConn / 10,
               get_client_hello_protocol_version exampleKemConn % 10]
              conn2.rsa_premaster_secret S2N_TLS_PROTOCOL_VERSION_LEN))) :=
  c2_rsa_recv_complete_flag exampleKemConn false
    { bytes := 3 :: 3 :: List.replicate 46 9, aliases_premaster := false }

/-- C3: for every pair of component secrets — `shared_key_0` from the
classical sub-method and the post-quantum secret the second sub-method left
in `kem_params.shared_secret` — the hybrid combiner allocates a combined
blob of size exactly the sum of their lengths and fills it with the
classical bytes followed immediately by the post-quantum bytes; `sel`
ranges over both the receive (`.read`) and send (`.write`) directions. -/
theorem c3_hybrid_combined_secret (conn : Conn)
    (kex_method : Nat → Conn → Except S2nError (Conn × List Nat)) (sel : CursorSel)
    (conn1 conn2 : Conn) (shared_key_0 sk1 : List Nat)
    (h0 : kex_method 0
            { conn with client_key_exchange_message_data := cursorVal sel conn }
            = .ok (conn1, shared_key_0))
    (h1 : kex_method 1 conn1 = .ok (conn2, sk1))
    (hc : cursorVal sel conn ≤ cursorVal sel conn2) :
    ∃ res, s2n_hybrid_client_action conn kex_method sel = .ok res ∧
      res.combined_shared_key.data = shared_key_0 ++ conn2.kem_shared_secret ∧
      res.combined_shared_key.data.length
        = shared_key_0.length + conn2.kem_shared_secret.length := by
  simp only [s2n_hybrid_client_action, cursorVal_set_message_data, h0, h1]
  rw [if_neg (Nat.not_lt.mpr hc)]
  simp only [s2n_stuffer_combiner_write, List.length_nil, Nat.zero_add, List.nil_append,
    Nat.le_add_right, if_true, Nat.le_refl]
  exact ⟨_, rfl, rfl, by simp⟩

/-- Witness for C3 at a concrete connection and sub-methods. -/
theorem c3_hybrid_combined_secret_witness :
    ∃ res, s2n_hybrid_client_action exampleKemConn (fun _ c => .ok (c, [1, 2]))
        CursorSel.read = .ok res ∧
      res.combined_shared_key.data
        = [1, 2] ++ ({ exampleKemConn with
            client_key_exchange_message_data := 0 } : Conn).kem_shared_secret ∧
      res.combined_shared_key.data.length
        = ([1, 2] : List Nat).length + ({ exampleKemConn with
            client_key_exchange_message_data := 0 } : Conn).kem_shared_secret.length :=
  c3_hybrid_combined_secret exampleKemConn (fun _ c => .ok (c, [1, 2])) .read
    { exampleKemConn with client_key_exchange_message_data := 0 }
    { exampleKemConn with client_key_exchange_message_data := 0 }
    [1, 2] [1, 2] rfl rfl (by decide)

/-- C7: with both sub-methods succeeding, the hybrid combiner records a
captured client key-exchange message span of size exactly the end cursor
minus the start cursor, fails with the safety error whenever the end cursor
is below the start cursor, and otherwise succeeds with the span recorded —
so the recorded span size is never negative (here: never an underflowing
subtraction). -/
theorem c7_hybrid_message_span (conn : Conn)
    (kex_method : Nat → Conn → Except S2nError (Conn × List Nat)) (sel : CursorSel)
    (conn1 conn2 : Conn) (shared_key_0 sk1 : List Nat)
    (h0 : kex_method 0
            { conn with client_key_exchange_message_data := cursorVal sel conn }
            = .ok (conn1, shared_key_0))
    (h1 : kex_method 1 conn1 = .ok (conn2, sk1)) :
    (cursorVal sel conn2 < cursorVal sel conn →
      s2n_hybrid_client_action conn kex_method sel = .error .safety) ∧
    (cursorVal sel conn ≤ cursorVal sel conn2 →
      ∃ res, s2n_hybrid_client_action conn kex_method sel = .ok res ∧
        res.conn.client_key_exchange_message_size
          = cursorVal sel conn2 - cursorVal sel conn) := by
  constructor
  · intro hlt
    simp only [s2n_hybrid_client_action, cursorVal_set_message_data, h0, h1]
    rw [if_pos hlt]
  · intro hle
    simp only [s2n_hybrid_client_action, cursorVal_set_message_data, h0, h1]
    rw [if_neg (Nat.not_lt.mpr hle)]
    simp only [s2n_stuffer_combiner_write, List.length_nil, Nat.zero_add, List.nil_append,
      Nat.le_add_right, if_true, Nat.le_refl]
    exact ⟨_, rfl, rfl⟩

/-- Witness for C7 at a concrete connection and sub-methods. -/
theorem c7_hybrid_message_span_witness :
    (cursorVal CursorSel.read
          ({ exampleKemConn with client_key_exchange_message_data := 0 } : Conn)
        < cursorVal CursorSel.read exampleKemConn →
      s2n_hybrid_client_action exampleKemConn (fun _ c => .ok (c, [1, 2]))
        CursorSel.read = .error .safety) ∧
    (cursorVal CursorSel.read exampleKemConn
        ≤ cursorVal CursorSel.read
            ({ exampleKemConn with client_key_exchange_message_data := 0 } : Conn) →
      ∃ res, s2n_hybrid_client_action exampleKemConn (fun _ c => .ok (c, [1, 2]))
          CursorSel.read = .ok res ∧
        res.conn.client_key_exchange_message_size
          = cursorVal CursorSel.read
              ({ exampleKemConn with client_key_exchange_message_data := 0 } : Conn)
            - cursorVal CursorSel.read exampleKemConn) :=
  c7_hybrid_message_span exampleKemConn (fun _ c => .ok (c, [1, 2])) .read
    { exampleKemConn with client_key_exchange_message_data := 0 }
    { exampleKemConn with client_key_exchange_message_data := 0 }
    [1, 2] [1, 2] rfl rfl

/-- A concrete connection on the TLS 1.2 (prefixed) RSA receive path: the
handshake stuffer holds the 16-bit length prefix `0, 3` followed by a
3-byte ciphertext. -/
def exampleRecvConn : Conn :=
  { client_hello_version := 33
    client_protocol_version := 33
    actual_protocol_version := 33
    rsa_premaster_secret := List.replicate 48 0
    handshake_io := { data := [0, 3, 8, 8, 8], read_cursor := 0, write_cursor := 5 }
    rsa_failed := false
    async_pkey_pending := false
    kem_shared_secret := []
    kem_shared_secret_addr := 1
    client_key_exchange_message_data := 0
    client_key_exchange_message_size := 0 }

/-- A concrete 48-byte random premaster fill. -/
def exampleRandom : List Nat := List.replicate 48 9

/-- The connection `s2n_rsa_client_key_recv` produces from
`exampleRecvConn` and `exampleRandom` at the decrypt submission. -/
def exampleRecvConn2 : Conn :=
  { exampleRecvConn with
    handshake_io := { data := [0, 3, 8, 8, 8], read_cursor := 5, write_cursor := 5 }
    rsa_premaster_secret := 3 :: 3 :: List.replicate 46 9 }

/-- C1: on every invocation of `s2n_rsa_client_key_recv` that reaches the
decrypt submission, the fresh random value of exactly `S2N_TLS_SECRET_LEN`
bytes has been written into the fixed-size `rsa_premaster_secret` buffer
with its first two bytes overwritten by the wire encoding of the originally
advertised client version (`version / 10`, `version % 10`); this happens at
submission time, before and independent of the private-key decryption's
outcome (which is handled separately by
`s2n_rsa_client_key_recv_complete`). -/
theorem c1_rsa_recv_randomized_version_stamped (conn : Conn) (random_data : List Nat)
    (conn2 : Conn) (encrypted : List Nat)
    (hlen : random_data.length = S2N_TLS_SECRET_LEN)
    (hres : s2n_rsa_client_key_recv conn random_data = .ok (.submitted conn2 encrypted)) :
    conn2.rsa_premaster_secret
        = get_client_hello_protocol_version conn / 10
          :: get_client_hello_protocol_version conn % 10
          :: random_data.drop 2 ∧
    conn2.rsa_premaster_secret.length = S2N_TLS_SECRET_LEN := by
  obtain ⟨-, len, s1, s2, -, -, -, -, hconn⟩ :=
    s2n_rsa_client_key_recv_submitted_inv conn random_data conn2 encrypted hres
  subst hconn
  rcases random_data with _ | ⟨r0, _ | ⟨r1, rest⟩⟩
  · simp [S2N_TLS_SECRET_LEN] at hlen
  · simp [S2N_TLS_SECRET_LEN] at hlen
  · simp only [S2N_TLS_SECRET_LEN, List.length_cons] at hlen
    constructor
    · simp [List.set]
    · simp only [List.length_set, List.length_cons, S2N_TLS_SECRET_LEN]
      omega

/-- Witness for C1 at the concrete TLS 1.2 connection. -/
theorem c1_rsa_recv_randomized_version_stamped_witness :
    exampleRecvConn2.rsa_premaster_secret
        = get_client_hello_protocol_version exampleRecvConn / 10
          :: get_client_hello_protocol_version exampleRecvConn % 10
          :: exampleRandom.drop 2 ∧
    exampleRecvConn2.rsa_premaster_secret.length = S2N_TLS_SECRET_LEN :=
  c1_rsa_recv_randomized_version_stamped exampleRecvConn exampleRandom
    exampleRecvConn2 [8, 8, 8] (by decide) (by decide)

/-- C5 (amended): when the negotiated protocol version is SSLv3, the
ciphertext length is the number of bytes remaining in the handshake
stuffer reduced modulo `2^16` — the source's `uint16_t length` truncates
the `uint32_t` byte count, so it equals all remaining bytes exactly when
fewer than `65536` remain (any submitted ciphertext has exactly that
truncated length); for every newer version a 16-bit length prefix is read
instead, the function fails with the bad-message error whenever the
declared length exceeds the bytes still available after the prefix, and
any submitted ciphertext has exactly the declared length.  `hwf` is the
stuffer well-formedness invariant (the write cursor never exceeds the
backing storage). -/
theorem c5_rsa_recv_ciphertext_length (conn : Conn) (random_data : List Nat)
    (conn2 : Conn) (encrypted : List Nat) (len : Nat) (s1 : Stuffer)
    (hwf : conn.handshake_io.write_cursor ≤ conn.handshake_io.data.length) :
    (conn.actual_protocol_version = S2N_SSLv3 →
      s2n_rsa_client_key_recv conn random_data = .ok (.submitted conn2 encrypted) →
      encrypted.length = s2n_stuffer_data_available conn.handshake_io % 65536) ∧
    (S2N_SSLv3 < conn.actual_protocol_version →
      s2n_stuffer_read_uint16 conn.handshake_io = .ok (len, s1) →
      ((s2n_stuffer_data_available s1 < len → conn.async_pkey_pending = false →
          s2n_rsa_client_key_recv conn random_data = .error .bad_message) ∧
        (s2n_rsa_client_key_recv conn random_data = .ok (.submitted conn2 encrypted) →
          encrypted.length = len))) := by
  constructor
  · intro hv hres
    obtain ⟨-, len', s1', s2, heq, hle, hraw, -, -⟩ :=
      s2n_rsa_client_key_recv_submitted_inv conn random_data conn2 encrypted hres
    rw [if_pos hv] at heq
    injection heq with heq
    injection heq with h1 h2
    subst h1
    subst h2
    simp only [s2n_stuffer_raw_read] at hraw
    rw [if_pos (Nat.mod_le _ _)] at hraw
    injection hraw with hraw
    injection hraw with henc hs2
    subst henc
    simp only [List.length_take, List.length_drop, s2n_stuffer_data_available] at hle ⊢
    omega
  · intro hv hread
    have hne : conn.actual_protocol_version ≠ S2N_SSLv3 := Nat.ne_of_gt hv
    constructor
    · intro hgt hpend
      simp [s2n_rsa_client_key_recv, hpend, hne, hread, hgt]
    · intro hres
      obtain ⟨-, len', s1', s2, heq, hle, hraw, -, -⟩ :=
        s2n_rsa_client_key_recv_submitted_inv conn random_data conn2 encrypted hres
      rw [if_neg hne] at heq
      rw [hread] at heq
      injection heq with heq
      injection heq with h1 h2
      subst h1
      subst h2
      have hs1 : s1 = { conn.handshake_io with
          read_cursor := conn.handshake_io.read_cursor + 2 } := by
        simp only [s2n_stuffer_read_uint16] at hread
        split at hread
        · injection hread with h
          injection h with h1 h2
          exact h2.symm
        · exact absurd hread (by simp)
      simp only [s2n_stuffer_raw_read] at hraw
      split at hraw
      next hcap =>
        injection hraw with hraw
        injection hraw with henc hs2
        subst henc
        subst hs1
        simp only [s2n_stuffer_data_available, List.length_take, List.length_drop] at hle hcap ⊢
        omega
      · exact absurd hraw (by simp)

/-- Witness for C5 at the concrete TLS 1.2 connection with a declared
length of 3 and 3 available ciphertext bytes. -/
theorem c5_rsa_recv_ciphertext_length_witness :
    (exampleRecvConn.actual_protocol_version = S2N_SSLv3 →
      s2n_rsa_client_key_recv exampleRecvConn exampleRandom
          = .ok (.submitted exampleRecvConn2 [8, 8, 8]) →
      ([8, 8, 8] : List Nat).length
        = s2n_stuffer_data_available exampleRecvConn.handshake_io % 65536) ∧
    (S2N_SSLv3 < exampleRecvConn.actual_protocol_version →
      s2n_stuffer_read_uint16 exampleRecvConn.handshake_io
          = .ok (3, { data := [0, 3, 8, 8, 8], read_cursor := 2, write_cursor := 5 }) →
      ((s2n_stuffer_data_available
            { data := [0, 3, 8, 8, 8], read_cursor := 2, write_cursor := 5 } < 3 →
          exampleRecvConn.async_pkey_pending = false →
          s2n_rsa_client_key_recv exampleRecvConn exampleRandom = .error .bad_message) ∧
        (s2n_rsa_client_key_recv exampleRecvConn exampleRandom
            = .ok (.submitted exampleRecvConn2 [8, 8, 8]) →
          ([8, 8, 8] : List Nat).length = 3))) :=
  c5_rsa_recv_ciphertext_length exampleRecvConn exampleRandom exampleRecvConn2 [8, 8, 8]
    3 { data := [0, 3, 8, 8, 8], read_cursor := 2, write_cursor := 5 } (by decide)

/-- A concrete SSLv3 connection whose handshake stuffer holds 65539
remaining bytes — more than the `uint16_t` length variable can represent. -/
def exampleSSLv3BigConn : Conn :=
  { client_hello_version := 30
    client_protocol_version := 30
    actual_protocol_version := 30
    rsa_premaster_secret := List.replicate 48 0
    handshake_io := { data := List.replicate 65539 1, read_cursor := 0,
                      write_cursor := 65539 }
    rsa_failed := false
    async_pkey_pending := false
    kem_shared_secret := []
    kem_shared_secret_addr := 1
    client_key_exchange_message_data := 0
    client_key_exchange_message_size := 0 }

/-- The connection `s2n_rsa_client_key_recv` produces from
`exampleSSLv3BigConn` and `exampleRandom`: only `65539 % 65536 = 3` bytes
are consumed as ciphertext. -/
def exampleSSLv3BigConn2 : Conn :=
  { exampleSSLv3BigConn with
    handshake_io := { data := List.replicate 65539 1, read_cursor := 3,
                      write_cursor := 65539 }
    rsa_premaster_secret := 3 :: 0 :: List.replicate 46 9 }

/-- C5 counterexample: on an SSLv3 connection with 65539 bytes remaining,
`s2n_rsa_client_key_recv` submits a ciphertext of `65539 % 65536 = 3`
bytes, not one of all 65539 remaining bytes: the `uint16_t length`
variable truncates the SSLv3-implicit byte count, refuting the claim that
the ciphertext length is taken to be all bytes remaining. -/
theorem c5_rsa_recv_ciphertext_length_counterexample :
    exampleSSLv3BigConn.actual_protocol_version = S2N_SSLv3 ∧
    s2n_stuffer_data_available exampleSSLv3BigConn.handshake_io = 65539 ∧
    s2n_rsa_client_key_recv exampleSSLv3BigConn exampleRandom
        = .ok (.submitted exampleSSLv3BigConn2 [1, 1, 1]) ∧
    ([1, 1, 1] : List Nat).length
        ≠ s2n_stuffer_data_available exampleSSLv3BigConn.handshake_io :=
  ⟨rfl, rfl, rfl, by decide⟩

/-- A concrete TLS 1.2 connection whose client key-exchange message
declares a zero-length ciphertext. -/
def exampleZeroLenConn : Conn :=
  { exampleRecvConn with
    handshake_io := { data := [0, 0], read_cursor := 0, write_cursor := 2 } }

/-- C10: `s2n_rsa_client_key_recv` rejects a zero-length ciphertext before
submitting anything for decryption: when the computed length is `0` —
whether from an SSLv3 message with no remaining bytes or from an explicit
16-bit length prefix of `0` — it fails (with the safety error `gt_check`
raises), and every run that does reach the decrypt submission carries a
nonempty ciphertext. -/
theorem c10_rsa_recv_rejects_zero_length (conn : Conn) (random_data : List Nat)
    (conn2 : Conn) (encrypted : List Nat) (s1 : Stuffer)
    (hpend : conn.async_pkey_pending = false) :
    ((conn.actual_protocol_version = S2N_SSLv3 ∧
        s2n_stuffer_data_available conn.handshake_io = 0) →
      s2n_rsa_client_key_recv conn random_data = .error .safety) ∧
    ((conn.actual_protocol_version ≠ S2N_SSLv3 ∧
        s2n_stuffer_read_uint16 conn.handshake_io = .ok (0, s1)) →
      s2n_rsa_client_key_recv conn random_data = .error .safety) ∧
    (s2n_rsa_client_key_recv conn random_data = .ok (.submitted conn2 encrypted) →
      0 < encrypted.length) := by
  refine ⟨?_, ?_, ?_⟩
  · rintro ⟨hv, hav⟩
    simp [s2n_rsa_client_key_recv, hpend, hv, hav, s2n_stuffer_raw_read]
  · rintro ⟨hv, hread⟩
    simp [s2n_rsa_client_key_recv, hpend, hv, hread, s2n_stuffer_raw_read]
  · intro hres
    obtain ⟨-, len, s1', s2, -, -, -, hnz, -⟩ :=
      s2n_rsa_client_key_recv_submitted_inv conn random_data conn2 encrypted hres
    exact Nat.pos_of_ne_zero hnz

/-- Witness for C10 at a concrete connection with a zero length prefix. -/
theorem c10_rsa_recv_rejects_zero_length_witness :
    ((exampleZeroLenConn.actual_protocol_version = S2N_SSLv3 ∧
        s2n_stuffer_data_available exampleZeroLenConn.handshake_io = 0) →
      s2n_rsa_client_key_recv exampleZeroLenConn exampleRandom = .error .safety) ∧
    ((exampleZeroLenConn.actual_protocol_version ≠ S2N_SSLv3 ∧
        s2n_stuffer_read_uint16 exampleZeroLenConn.handshake_io
          = .ok (0, { data := [0, 0], read_cursor := 2, write_cursor := 2 })) →
      s2n_rsa_client_key_recv exampleZeroLenConn exampleRandom = .error .safety) ∧
    (s2n_rsa_client_key_recv exampleZeroLenConn exampleRandom
        = .ok (.submitted exampleRecvConn2 [8, 8, 8]) →
      0 < ([8, 8, 8] : List Nat).length) :=
  c10_rsa_recv_rejects_zero_length exampleZeroLenConn exampleRandom exampleRecvConn2
    [8, 8, 8] { data := [0, 0], read_cursor := 2, write_cursor := 2 } (by decide)

theorem s2n_stuffer_write_bytes_at_end (s : Stuffer) (b : List Nat)
    (h : s.write_cursor = s.data.length) :
    (s2n_stuffer_write_bytes s b).data = s.data ++ b ∧
    (s2n_stuffer_write_bytes s b).write_cursor
      = (s2n_stuffer_write_bytes s b).data.length := by
  have h1 : s.data.drop (s.write_cursor + b.length) = [] :=
    List.drop_eq_nil_of_le (by omega)
  have h2 : s.data.take s.write_cursor = s.data := by
    rw [h]
    simp
  refine ⟨?_, ?_⟩ <;> simp [s2n_stuffer_write_bytes, h1, h2, h]

/-- The connection `s2n_rsa_client_key_send` produces from
`exampleRecvConn` and `exampleRandom` with a 3-byte ciphertext: the
stuffer gains the length prefix `0, 3` and then the ciphertext bytes. -/
def exampleSendConn2 : Conn :=
  { exampleRecvConn with
    handshake_io := { data := [0, 3, 8, 8, 8, 0, 3, 1, 2, 3], read_cursor := 0,
                      write_cursor := 10 }
    rsa_premaster_secret := 3 :: 3 :: List.replicate 46 9 }

/-- C8: with the public-key size query succeeding,
`s2n_rsa_client_key_send` fails with the size-mismatch error whenever the
required ciphertext size exceeds `0xffff`, and on success the bytes
appended to the handshake transcript are the 2-byte length prefix followed
by the ciphertext if and only if the negotiated protocol version is newer
than SSLv3 (just the ciphertext otherwise).  `hwc` says the write cursor
sits at the end of the stuffer (the transcript is append-only per
direction); `hct` says the encrypt primitive wrote exactly the queried
number of bytes. -/
theorem c8_rsa_send_size_check_and_length_prefix (conn : Conn)
    (random_data ciphertext : List Nat) (encrypted_size : Nat) (pe pf : Bool)
    (sendConn : Conn) (sent_premaster : List Nat)
    (hwc : conn.handshake_io.write_cursor = conn.handshake_io.data.length)
    (hct : ciphertext.length = encrypted_size) :
    (0xffff < encrypted_size →
      s2n_rsa_client_key_send conn random_data true encrypted_size ciphertext pe pf
        = .error .size_mismatch) ∧
    (s2n_rsa_client_key_send conn random_data true encrypted_size ciphertext pe pf
        = .ok (sendConn, sent_premaster) →
      sendConn.handshake_io.data
        = conn.handshake_io.data
          ++ (if S2N_SSLv3 < conn.actual_protocol_version then
                [encrypted_size / 256 % 256, encrypted_size % 256]
              else [])
          ++ ciphertext) := by
  constructor
  · intro hgt
    simp [s2n_rsa_client_key_send, hgt]
  · intro hres
    simp only [s2n_rsa_client_key_send] at hres
    split at hres
    case isFalse hpsk => exact absurd hres (by simp)
    case isTrue hpsk =>
    split at hres
    case isTrue hgt => exact absurd hres (by simp)
    case isFalse hgt =>
    split at hres
    case isFalse hpe => exact absurd hres (by simp)
    case isTrue hpe =>
    split at hres
    case isFalse hpf => exact absurd hres (by simp)
    case isTrue hpf =>
    injection hres with hres
    injection hres with hconn hpm
    subst hconn
    subst hct
    have hregion : ciphertext.take ciphertext.length ++
        List.replicate (ciphertext.length - ciphertext.length) 0 = ciphertext := by
      simp
    simp only [Conn.handshake_io]
    by_cases hv : S2N_SSLv3 < conn.actual_protocol_version
    · have w1 := s2n_stuffer_write_bytes_at_end conn.handshake_io
        [ciphertext.length / 256 % 256, ciphertext.length % 256] hwc
      rw [if_pos hv, if_pos hv, hregion, s2n_stuffer_write_uint16]
      have w2 := s2n_stuffer_write_bytes_at_end
        (s2n_stuffer_write_bytes conn.handshake_io
          [ciphertext.length / 256 % 256, ciphertext.length % 256])
        ciphertext w1.2
      rw [w2.1, w1.1, List.append_assoc]
    · have w2 := s2n_stuffer_write_bytes_at_end conn.handshake_io ciphertext hwc
      rw [if_neg hv, if_neg hv, hregion, w2.1]
      simp

/-- Witness for C8 at the concrete TLS 1.2 connection with a 3-byte
ciphertext (the length prefix `0, 3` is written). -/
theorem c8_rsa_send_size_check_and_length_prefix_witness :
    (0xffff < 3 →
      s2n_rsa_client_key_send exampleRecvConn exampleRandom true 3 [1, 2, 3] true true
        = .error .size_mismatch) ∧
    (s2n_rsa_client_key_send exampleRecvConn exampleRandom true 3 [1, 2, 3] true true
        = .ok (exampleSendConn2, 3 :: 3 :: List.replicate 46 9) →
      exampleSendConn2.handshake_io.data
        = exampleRecvConn.handshake_io.data
          ++ (if S2N_SSLv3 < exampleRecvConn.actual_protocol_version then
                [3 / 256 % 256, 3 % 256]
              else [])
          ++ [1, 2, 3]) :=
  c8_rsa_send_size_check_and_length_prefix exampleRecvConn exampleRandom [1, 2, 3] 3
    true true exampleSendConn2 (3 :: 3 :: List.replicate 46 9) (by decide) (by decide)

/-- C9: on both the RSA receive and send paths, the two version bytes
stamped into the premaster secret are formed from the client hello version,
except when the client hello version is SSLv2, in which case the client's
protocol version is used instead. -/
theorem c9_advertised_version_selection (conn : Conn) (random_data : List Nat)
    (conn2 : Conn) (encrypted : List Nat) (sendConn : Conn)
    (sent_premaster ciphertext : List Nat) (pkey_size_ok pe pf : Bool)
    (encrypted_size : Nat)
    (hlen : random_data.length = S2N_TLS_SECRET_LEN) :
    (s2n_rsa_client_key_recv conn random_data = .ok (.submitted conn2 encrypted) →
      conn2.rsa_premaster_secret.take 2
        = [(if conn.client_hello_version = S2N_SSLv2 then conn.client_protocol_version
            else conn.client_hello_version) / 10,
           (if conn.client_hello_version = S2N_SSLv2 then conn.client_protocol_version
            else conn.client_hello_version) % 10]) ∧
    (s2n_rsa_client_key_send conn random_data pkey_size_ok encrypted_size ciphertext pe pf
        = .ok (sendConn, sent_premaster) →
      sendConn.rsa_premaster_secret.take 2
        = [(if conn.client_hello_version = S2N_SSLv2 then conn.client_protocol_version
            else conn.client_hello_version) / 10,
           (if conn.client_hello_version = S2N_SSLv2 then conn.client_protocol_version
            else conn.client_hello_version) % 10]) := by
  rcases random_data with _ | ⟨r0, _ | ⟨r1, rest⟩⟩
  · simp [S2N_TLS_SECRET_LEN] at hlen
  · simp [S2N_TLS_SECRET_LEN] at hlen
  constructor
  · intro hres
    obtain ⟨-, len, s1, s2, -, -, -, -, hconn⟩ :=
      s2n_rsa_client_key_recv_submitted_inv conn (r0 :: r1 :: rest) conn2 encrypted hres
    subst hconn
    simp [List.set, get_client_hello_protocol_version]
  · intro hres
    simp only [s2n_rsa_client_key_send] at hres
    split at hres
    case isFalse => exact absurd hres (by simp)
    case isTrue =>
    split at hres
    case isTrue => exact absurd hres (by simp)
    case isFalse =>
    split at hres
    case isFalse => exact absurd hres (by simp)
    case isTrue =>
    split at hres
    case isFalse => exact absurd hres (by simp)
    case isTrue =>
    injection hres with hres
    injection hres with hconn hpm
    subst hconn
    simp [List.set, get_client_hello_protocol_version]

/-- Witness for C9 at the concrete TLS 1.2 connection, on both paths. -/
theorem c9_advertised_version_selection_witness :
    (s2n_rsa_client_key_recv exampleRecvConn exampleRandom
        = .ok (.submitted exampleRecvConn2 [8, 8, 8]) →
      exampleRecvConn2.rsa_premaster_secret.take 2
        = [(if exampleRecvConn.client_hello_version = S2N_SSLv2 then
              exampleRecvConn.client_protocol_version
            else exampleRecvConn.client_hello_version) / 10,
           (if exampleRecvConn.client_hello_version = S2N_SSLv2 then
              exampleRecvConn.client_protocol_version
            else exampleRecvConn.client_hello_version) % 10]) ∧
    (s2n_rsa_client_key_send exampleRecvConn exampleRandom true 3 [1, 2, 3] true true
        = .ok (exampleSendConn2, 3 :: 3 :: List.replicate 46 9) →
      exampleSendConn2.rsa_premaster_secret.take 2
        = [(if exampleRecvConn.client_hello_version = S2N_SSLv2 then
              exampleRecvConn.client_protocol_version
            else exampleRecvConn.client_hello_version) / 10,
           (if exampleRecvConn.client_hello_version = S2N_SSLv2 then
              exampleRecvConn.client_protocol_version
            else exampleRecvConn.client_hello_version) % 10]) :=
  c9_advertised_version_selection exampleRecvConn exampleRandom exampleRecvConn2
    [8, 8, 8] exampleSendConn2 (3 :: 3 :: List.replicate 46 9) [1, 2, 3] true true true 3
    (by decide)
